import Mathlib

/-!
Verification of the project-lifecycle core of `src/rpdk/core/project.py`
(schema documentation generation, IAM role-template synthesis, packaging
and registration submission) against its natural-language specification.

The Python source is shallowly embedded: JSON documents become an
inductive `Json` value, in-place dict mutation becomes explicit state
threading of the root schema value (with an optional alias location for
nodes reached through a `$ref` indirection, mirroring CPython object
aliasing at the level of final values), remote clients become oracles of
call results plus an explicit call trace, and exceptions become `Except`.
-/

namespace Rpdk

/-- A JSON document, as handled by Python's `json` module.  Objects keep
insertion order (CPython dicts preserve it); numbers are modelled as
integers, which covers every numeric field the claims touch. -/
inductive Json where
  | null : Json
  | bool (b : Bool) : Json
  | num (n : Int) : Json
  | str (s : String) : Json
  | arr (xs : List Json) : Json
  | obj (fields : List (String × Json)) : Json

instance : Inhabited Json := ⟨Json.null⟩

mutual
/-- Structural equality of JSON values. -/
def Json.beq : Json → Json → Bool
  | .null, .null => true
  | .bool a, .bool b => a == b
  | .num a, .num b => a == b
  | .str a, .str b => a == b
  | .arr xs, .arr ys => beqJsonList xs ys
  | .obj fs, .obj gs => beqJsonFields fs gs
  | _, _ => false

def beqJsonList : List Json → List Json → Bool
  | [], [] => true
  | x :: xs, y :: ys => Json.beq x y && beqJsonList xs ys
  | _, _ => false

def beqJsonFields : List (String × Json) → List (String × Json) → Bool
  | [], [] => true
  | (k, v) :: fs, (k', v') :: gs => k == k' && Json.beq v v' && beqJsonFields fs gs
  | _, _ => false
end

mutual
def Json.beq_iff : ∀ (a b : Json), (Json.beq a b = true) ↔ a = b
  | .null, b => by cases b <;> simp [Json.beq]
  | .bool _, b => by cases b <;> simp [Json.beq]
  | .num _, b => by cases b <;> simp [Json.beq]
  | .str _, b => by cases b <;> simp [Json.beq]
  | .arr xs, .arr ys => by simpa [Json.beq] using beqJsonList_iff xs ys
  | .arr _, .null => by simp [Json.beq]
  | .arr _, .bool _ => by simp [Json.beq]
  | .arr _, .num _ => by simp [Json.beq]
  | .arr _, .str _ => by simp [Json.beq]
  | .arr _, .obj _ => by simp [Json.beq]
  | .obj fs, .obj gs => by simpa [Json.beq] using beqJsonFields_iff fs gs
  | .obj _, .null => by simp [Json.beq]
  | .obj _, .bool _ => by simp [Json.beq]
  | .obj _, .num _ => by simp [Json.beq]
  | .obj _, .str _ => by simp [Json.beq]
  | .obj _, .arr _ => by simp [Json.beq]

def beqJsonList_iff : ∀ (xs ys : List Json), (beqJsonList xs ys = true) ↔ xs = ys
  | [], [] => by simp [beqJsonList]
  | [], _ :: _ => by simp [beqJsonList]
  | _ :: _, [] => by simp [beqJsonList]
  | x :: xs, y :: ys => by
    simp [beqJsonList, Json.beq_iff x y, beqJsonList_iff xs ys]

def beqJsonFields_iff :
    ∀ (fs gs : List (String × Json)), (beqJsonFields fs gs = true) ↔ fs = gs
  | [], [] => by simp [beqJsonFields]
  | [], _ :: _ => by simp [beqJsonFields]
  | _ :: _, [] => by simp [beqJsonFields]
  | (k, v) :: fs, (k', v') :: gs => by
    simp [beqJsonFields, Json.beq_iff v v', beqJsonFields_iff fs gs, and_assoc]
end

instance : DecidableEq Json := fun a b => decidable_of_iff _ (Json.beq_iff a b)

mutual
/-- Rendering for display purposes only (no claim depends on it). -/
def Json.render : Json → String
  | .null => "null"
  | .bool b => toString b
  | .num n => toString n
  | .str s => s.quote
  | .arr xs => "[" ++ renderJsonList xs ++ "]"
  | .obj fs => "\x7b" ++ renderJsonFields fs ++ "\x7d"

def renderJsonList : List Json → String
  | [] => ""
  | [x] => x.render
  | x :: xs => x.render ++ ", " ++ renderJsonList xs

def renderJsonFields : List (String × Json) → String
  | [] => ""
  | [(k, v)] => k.quote ++ ": " ++ v.render
  | (k, v) :: fs => k.quote ++ ": " ++ v.render ++ ", " ++ renderJsonFields fs
end

instance : Repr Json := ⟨fun j _ => Json.render j⟩

instance {ε α : Type} [DecidableEq ε] [DecidableEq α] : DecidableEq (Except ε α) := fun a b =>
  match a, b with
  | .error e, .error f =>
    if h : e = f then .isTrue (h ▸ rfl) else .isFalse fun hh => h (Except.error.inj hh)
  | .ok x, .ok y =>
    if h : x = y then .isTrue (h ▸ rfl) else .isFalse fun hh => h (Except.ok.inj hh)
  | .error _, .ok _ => .isFalse fun hh => Except.noConfusion hh
  | .ok _, .error _ => .isFalse fun hh => Except.noConfusion hh

/-- Substring test (Python `needle in haystack` on strings). -/
def strContains (s pat : String) : Bool :=
  (List.range (s.data.length + 1)).any fun i => pat.data.isPrefixOf (s.data.drop i)

/-! ### Kernel-computable string operations

The library versions of these (`String.splitOn`, `String.replace`,
`String.toLower`, `String.toNat?`) are defined through position-based
auxiliary loops that the kernel cannot reduce, so the embedding defines
its own over the character lists. -/

/-- `s.split(sep)` semantics: the empty string yields one empty part and
a trailing separator yields a trailing empty part. -/
def charSplit (sep : Char) : List Char → List (List Char)
  | [] => [[]]
  | c :: rest =>
    let parts := charSplit sep rest
    if c = sep then [] :: parts
    else
      match parts with
      | [] => [[c]]   -- unreachable: charSplit never returns []
      | p :: ps => (c :: p) :: ps

/-- Split a string on a separator character. -/
def strSplitOn (sep : Char) (s : String) : List String :=
  (charSplit sep s.data).map fun cs => ⟨cs⟩

/-- Left-to-right replacement of a single-character pattern. -/
def replaceChar (a : Char) (repl : List Char) : List Char → List Char
  | [] => []
  | c :: rest =>
    if c = a then repl ++ replaceChar a repl rest else c :: replaceChar a repl rest

def strReplaceChar (a : Char) (repl : String) (s : String) : String :=
  ⟨replaceChar a repl.data s.data⟩

/-- Left-to-right non-overlapping replacement of the two-character
pattern `[a, b]` (the shape of every JSON-Pointer escape). -/
def replacePair (a b : Char) (repl : List Char) : List Char → List Char
  | [] => []
  | [c] => [c]
  | c :: d :: rest =>
    if c = a ∧ d = b then repl ++ replacePair a b repl rest
    else c :: replacePair a b repl (d :: rest)

def strReplacePair (a b : Char) (repl : String) (s : String) : String :=
  ⟨replacePair a b repl.data s.data⟩

/-- ASCII lowercasing (Python `str.lower()`; the names the source
lowercases are ASCII property names). -/
def lowerChar (c : Char) : Char :=
  if 65 ≤ c.toNat ∧ c.toNat ≤ 90 then Char.ofNat (c.toNat + 32) else c

def lowerString (s : String) : String := ⟨s.data.map lowerChar⟩

/-- Join a list of strings with a separator (`sep.join(parts)`). -/
def strJoinWith (sep : String) : List String → String
  | [] => ""
  | [s] => s
  | s :: rest => s ++ sep ++ strJoinWith sep rest

/-- Concatenate a list of strings. -/
def strConcat : List String → String
  | [] => ""
  | s :: rest => s ++ strConcat rest

/-- Parse a non-empty all-digit string (the guard `jsonschema` applies
before indexing a list with a pointer segment). -/
def digitsToNat? : List Char → Option Nat
  | [] => none
  | cs =>
    if cs.all fun c => '0' ≤ c ∧ c ≤ '9' then
      some (cs.foldl (fun acc c => 10 * acc + (c.toNat - 48)) 0)
    else none

/-- First binding of a key in an object field list (Python dicts cannot
hold duplicate keys, so source-derived objects have at most one). -/
def lookupField : List (String × Json) → String → Option Json
  | [], _ => none
  | (k', v) :: rest, k => if k' = k then some v else lookupField rest k

/-- `d[k] = v` on a Python dict: replace in place if the key exists
(keeping its position), otherwise append. -/
def setField : List (String × Json) → String → Json → List (String × Json)
  | [], k, v => [(k, v)]
  | (k', v') :: rest, k, v =>
    if k' = k then (k, v) :: rest else (k', v') :: setField rest k v

/-- `prop.get(k)` / `k in prop` on an object node. -/
def Json.get? : Json → String → Option Json
  | .obj fs, k => lookupField fs k
  | _, _ => none

/-- `prop[k] = v` on an object node (no-op on non-objects, where Python
would raise; all call sites guard the node shape). -/
def Json.setKey : Json → String → Json → Json
  | .obj fs, k, v => .obj (setField fs k v)
  | j, _, _ => j

/-- Python truthiness of a JSON value (`not self.schema`, `a or b`). -/
def Json.truthy : Json → Bool
  | .null => false
  | .bool b => b
  | .num n => n ≠ 0
  | .str s => s ≠ ""
  | .arr xs => ¬ xs.isEmpty
  | .obj fs => ¬ fs.isEmpty

/-- A path segment addressing a list element, as `jsonschema`'s resolver
does: the segment must be a decimal index. -/
def segIndex? (s : String) : Option Nat := digitsToNat? s.data

mutual
/-- Read the sub-document at a path of object keys / array indices. -/
def Json.getAt : Json → List String → Option Json
  | j, [] => some j
  | .obj fs, k :: rest => getAtFields fs k rest
  | .arr xs, k :: rest =>
    match segIndex? k with
    | some i => getAtList xs i rest
    | none => none
  | _, _ :: _ => none

def getAtFields : List (String × Json) → String → List String → Option Json
  | [], _, _ => none
  | (k', v) :: fs, k, rest => if k' = k then v.getAt rest else getAtFields fs k rest

def getAtList : List Json → Nat → List String → Option Json
  | [], _, _ => none
  | x :: _, 0, rest => x.getAt rest
  | _ :: xs, i + 1, rest => getAtList xs i rest
end

mutual
/-- Replace the sub-document at a path (used to reflect an in-place
mutation of an aliased node back into the root schema value).  A path
that does not exist leaves the document unchanged; by construction the
walker only writes to paths it has just resolved. -/
def Json.setAt : Json → List String → Json → Json
  | _, [], v => v
  | .obj fs, k :: rest, v => .obj (setAtFields fs k rest v)
  | .arr xs, k :: rest, v =>
    match segIndex? k with
    | some i => .arr (setAtList xs i rest v)
    | none => .arr xs
  | j, _ :: _, _ => j

def setAtFields : List (String × Json) → String → List String → Json → List (String × Json)
  | [], _, _, _ => []
  | (k', v') :: fs, k, rest, v =>
    if k' = k then (k', v'.setAt rest v) :: fs else (k', v') :: setAtFields fs k rest v

def setAtList : List Json → Nat → List String → Json → List Json
  | [], _, _, _ => []
  | x :: xs, 0, rest, v => x.setAt rest v :: xs
  | x :: xs, i + 1, rest, v => x :: setAtList xs i rest v
end

/-! ### JSON pointers (`jsonutils.pointer`) -/

/-- JSON-Pointer escaping of one segment (tilde first, then slash). -/
def escapeSegment (s : String) : String :=
  strReplaceChar '/' "~1" (strReplaceChar '~' "~0" s)

/-- JSON-Pointer unescaping of one segment (slash first, tilde last). -/
def unescapeSegment (s : String) : String :=
  strReplacePair '~' '0' "~" (strReplacePair '~' '1' "/" s)

/-- Modelled from the spec: `jsonutils.pointer.fragment_encode` is not under
`src/`.  Section 4.2 specifies joining the segments with slashes after a
configurable fragment head (normally "#", the empty string when comparing
against bare property paths), escaping each segment per standard
JSON-Pointer rules. -/
def fragmentEncode (head : String) (segments : List String) : String :=
  head ++ strConcat (segments.map fun s => "/" ++ escapeSegment s)

/-- Modelled from the spec: `jsonutils.pointer.fragment_decode` is not under
`src/`.  Section 4.2 specifies splitting on slashes, failing with a
decoding error when the part before the first slash is not the configured
head, and unescaping each remaining segment.  The decoding error
(a Python `ValueError`) is modelled as `none`. -/
def fragmentDecode (head : String) (fragment : String) : Option (List String) :=
  match strSplitOn '/' fragment with
  | [] => none
  | p :: rest => if p = head then some (rest.map unescapeSegment) else none

/-- Modelled from the spec: `jsonutils.utils.traverse` is not under `src/`.
Section 4.4 uses it to resolve a node at a decoded pointer path, where a
missing key, a bad list index or a non-container node is a lookup failure
(the caller catches `KeyError`, `IndexError` and `ValueError`). -/
def traverseDoc (doc : Json) (path : List String) : Option Json := doc.getAt path

/-! ### Errors raised while generating documentation -/

/-- Python exceptions that escape the documentation generator (the shallow
embedding raises uniformly where CPython would raise shape-dependent
`AttributeError`, `TypeError`, `KeyError`, `IndexError` or `ValueError`;
no claim depends on which of these is raised). -/
inductive DocsErr where
  | fuel            -- modelling fuel exhausted (cyclic references diverge in Python)
  | refUnresolvable -- jsonschema RefResolutionError or a non-string "$ref"
  | nonObjectNode   -- AttributeError and TypeError on a non-dict schema node
  | typeErr         -- TypeError: unhashable type tag or a bad container shape
  | missingItems    -- KeyError on prop["items"]
  | badMembers      -- AttributeError iterating a non-dict property map
  | valueError      -- uncaught ValueError from fragment decoding
  | indexError      -- uncaught IndexError (path[-1] on an empty pointer)
deriving DecidableEq, Repr

/-! ### Primary-identifier resolution (`Project._get_docs_primary_identifier`) -/

inductive PrimaryIdLog where
  | nestedPrimaryIdentifier   -- LOG.warning("Nested primaryIdentifier found")
deriving DecidableEq, Repr

/-- Embedding of `Project._get_docs_primary_identifier`: a single-entry
`primaryIdentifier` is decoded with an empty fragment head, its leading
"properties" segment dropped; only a remaining single-segment path is
surfaced.  `KeyError` and `ValueError` are caught and yield an absent
value. -/
def getDocsPrimaryIdentifier (docsSchema : Json) :
    Except DocsErr (Option String × List PrimaryIdLog) :=
  match docsSchema.get? "primaryIdentifier" with
  | none => .ok (none, [])                 -- KeyError is caught
  | some (.arr ids) =>
    match ids with
    | [single] =>
      match single with
      | .str s =>
        match fragmentDecode "" s with
        | none => .ok (none, [])           -- ValueError is caught
        | some path =>
          match path.drop 1 with           -- drop the leading "properties" segment
          | [only] => .ok (some only, [])
          | _ => .ok (none, [.nestedPrimaryIdentifier])
      | _ => .error .nonObjectNode         -- non-string entry: AttributeError, not caught
    | _ => .ok (none, [])                  -- len(primary_id) != 1: no warning is logged
  | some _ => .error .typeErr              -- non-list primaryIdentifier shapes are not modelled

/-! ### Gettable attributes (`Project._get_docs_gettable_atts`) -/

structure GettableAtt where
  name : String
  description : Json
deriving DecidableEq, Repr

/-- Embedding of the inner `_get_property_description`: the decode failure
is raised outside the `try` block and therefore escapes; only the
traversal failure substitutes the generated default description. -/
def getPropertyDescription (docsSchema : Json) (pointer : String) : Except DocsErr GettableAtt :=
  match fragmentDecode "" pointer with
  | none => .error .valueError             -- fragment_decode raises outside the try
  | some path =>
    match path.getLast? with
    | none => .error .indexError           -- path[-1] on an empty tuple
    | some name =>
      let desc :=
        match traverseDoc docsSchema (path ++ ["description"]) with
        | some d => d
        | none => .str ("Returns the <code>" ++ name ++ "</code> value.")
      .ok { name, description := desc }

/-- Embedding of `Project._get_docs_gettable_atts`. -/
def getDocsGettableAtts (docsSchema : Json) : Except DocsErr (List GettableAtt) :=
  match docsSchema.get? "readOnlyProperties" with
  | none => .ok []                         -- .get("readOnlyProperties", [])
  | some (.arr props) =>
    props.mapM fun p =>
      match p with
      | .str s => getPropertyDescription docsSchema s
      | _ => .error .nonObjectNode         -- non-string pointer: AttributeError in split
  | some _ => .error .typeErr              -- non-list readOnlyProperties shapes are not modelled

/-! ### The schema tree walker (`Project._set_docs_properties`)

CPython semantics being embedded: `generate_docs` takes a deep copy of
`self.schema` and walks its properties, but `_set_docs_properties`
resolves a node's `$ref` against `self.schema` itself, so the resolved
node is an alias into the original schema and every in-place `prop[k] =
v` mutation lands there.  The embedding threads the live value of
`self.schema` as `root` and carries `loc`, the address of the current
node inside `root` when the node is such an alias (`none` for nodes of
the detached copy). -/

def BASIC_TYPE_MAPPINGS : String → Option String
  | "string" => some "String"
  | "number" => some "Double"
  | "integer" => some "Double"
  | "boolean" => some "Boolean"
  | _ => none

/-- `RefResolver.from_schema(self.schema).resolve(ref)`: an in-document
fragment reference resolved by pointer traversal from the root, also
returning the target's address.  Remote references and plain-name
fragments are modelled as resolution failures. -/
def resolveRef (root : Json) (r : String) : Option (Json × List String) :=
  match r.data with
  | '#' :: rest =>
    match charSplit '/' rest with
    | [] :: segs =>
      let path := segs.map fun cs => unescapeSegment ⟨cs⟩
      (root.getAt path).map fun j => (j, path)
    | _ => none
  | _ => none

/-- `if "$ref" in prop: prop = RefResolver...resolve(prop["$ref"])[1]` —
rebinds the node to the resolved target, an alias into `root`. -/
def refStep (root prop : Json) (loc : Option (List String)) :
    Except DocsErr (Json × Option (List String)) :=
  match prop with
  | .obj fs =>
    match lookupField fs "$ref" with
    | some (.str r) =>
      match resolveRef root r with
      | some (target, tpath) => .ok (target, some tpath)
      | none => .error .refUnresolvable
    | some _ => .error .refUnresolvable
    | none => .ok (prop, loc)
  | _ => .error .nonObjectNode   -- Python raises on non-dict nodes

/-- `ptr in self.schema[key]` guarded by `key in self.schema` (list
membership for the expected list shape; string containment and dict-key
membership for the other shapes Python's `in` accepts). -/
def ptrListMem (root : Json) (key ptr : String) : Except DocsErr Bool :=
  match root.get? key with
  | none => .ok false
  | some (.arr xs) => .ok (decide (Json.str ptr ∈ xs))
  | some (.str s) => .ok (strContains s ptr)
  | some (.obj fs) => .ok ((lookupField fs ptr).isSome)
  | some _ => .error .typeErr

/-- `prop[k] = v`: update the local node value and, when the node is an
alias into the root schema, the root as well. -/
def setP (loc : Option (List String)) (root prop : Json) (k : String) (v : Json) :
    Json × Json :=
  let prop' := prop.setKey k v
  match loc with
  | some q => (root.setAt q prop', prop')
  | none => (root, prop')

/-- The createonly/readonly flagging against `createOnlyProperties` and
`readOnlyProperties` of the live root schema. -/
def flagsStep (root prop : Json) (loc : Option (List String)) (proppath : List String) :
    Except DocsErr (Json × Json) :=
  let ptr := fragmentEncode "" ("properties" :: proppath)
  (ptrListMem root "createOnlyProperties" ptr).bind fun isCreate =>
    let rp := if isCreate then setP loc root prop "createonly" (.bool true) else (root, prop)
    (ptrListMem rp.1 "readOnlyProperties" ptr).map fun isRead =>
      if isRead then setP loc rp.1 rp.2 "readonly" (.bool true) else rp

/-- `prop.get("type", "object")`.  A non-dict node (possible as a `$ref`
resolution target) raises before reaching any branch (`AttributeError`
at `.get`, or `TypeError` at an earlier flag assignment).  A list- or
dict-valued tag is unhashable and raises in the mapping-membership
test; other non-string tags are hashable, match no branch and land in
the Unknown case (collapsed onto the empty tag, which is also
unmapped). -/
def typeTag (prop : Json) : Except DocsErr String :=
  match prop with
  | .obj fs =>
    match lookupField fs "type" with
    | none => .ok "object"
    | some (.str t) => .ok t
    | some (.arr _) => .error .typeErr
    | some (.obj _) => .error .typeErr
    | some _ => .ok ""
  | _ => .error .nonObjectNode

/-- `prop.get("properties") or prop.get("patternProperties") or {}`
(Python `or`: first truthy operand), remembering which key supplied the
member map.  A truthy non-dict operand raises at `.items()`. -/
def membersOfPattern (prop : Json) : Except DocsErr (Option String × List (String × Json)) :=
  match prop.get? "patternProperties" with
  | some v =>
    if v.truthy then
      match v with
      | .obj fs => .ok (some "patternProperties", fs)
      | _ => .error .badMembers
    else .ok (none, [])
  | none => .ok (none, [])

def membersOf (prop : Json) : Except DocsErr (Option String × List (String × Json)) :=
  match prop.get? "properties" with
  | some v =>
    if v.truthy then
      match v with
      | .obj fs => .ok (some "properties", fs)
      | _ => .error .badMembers
    else membersOfPattern prop
  | none => membersOfPattern prop

/-- A side documentation file written by the walker, identified by the
inputs of its template rendering. -/
structure DocArtifact where
  filename : String
  typeName : String
  subpropertyName : String
  schema : Json
deriving DecidableEq, Repr

/-- f-string interpolation of a display field (always a string on every
node the walker returns). -/
def jsonStrVal : Json → String
  | .str s => s
  | j => j.render

def displayField (j : Json) (k : String) : String :=
  jsonStrVal ((j.get? k).getD .null)

/-- `if "enum" in prop: prop["allowedvalues"] = prop["enum"]`. -/
def enumStep (loc : Option (List String)) (root prop : Json) : Json × Json :=
  match prop.get? "enum" with
  | some e => setP loc root prop "allowedvalues" e
  | none => (root, prop)

def hrefFor (filename propname : String) : String :=
  "<a href=\"" ++ filename ++ "\">" ++ propname ++ "</a>"

/-- After the member comprehension, a detached node still reflects the
in-place mutation of its non-`$ref` members under `patternProperties`
(the only source key whose dict survives the subsequent `properties`
assignment). -/
def foldbackMembers (prop : Json) (srcKey : Option String)
    (fields members' : List (String × Json)) : Json :=
  match srcKey with
  | some "patternProperties" =>
    let updated := (fields.zip members').map fun p =>
      (p.1.1, if (p.1.2.get? "$ref").isSome then p.1.2 else p.2.2)
    prop.setKey "patternProperties" (.obj updated)
  | _ => prop

/-- The node value after the member comprehension: an aliased node is
re-read from the live root (it is the same CPython dict the members
mutated through), a detached node folds the in-place member mutations
back. -/
def resyncObject (loc : Option (List String)) (root prop : Json) (srcKey : Option String)
    (fields members' : List (String × Json)) : Json :=
  match loc with
  | some q => (root.getAt q).getD prop
  | none => foldbackMembers prop srcKey fields members'

/-- The tail of the walker's object branch, after the member walk: the
node re-sync, the `properties` assignment, the one side-artifact
emission (rendered before the display fields change), the three
cross-reference display fields and the enum copy.  Named so the
statements about the object branch can refer to its result. -/
def objectBranchResult (typeName propname : String) (root2 prop3 : Json)
    (loc : Option (List String)) (proppath : List String) (srcKey : Option String)
    (fields members' : List (String × Json)) (childArts : List DocArtifact) :
    Json × Json × List DocArtifact :=
  let prop4 := resyncObject loc root2 prop3 srcKey fields members'
  let rp := setP loc root2 prop4 "properties" (.obj members')
  let filename := lowerString (strJoinWith "-" proppath) ++ ".md"
  let art : DocArtifact :=
    { filename := filename, typeName := typeName,
      subpropertyName := strJoinWith " " proppath, schema := rp.2 }
  let href := hrefFor filename propname
  let rp1 := setP loc rp.1 rp.2 "jsontype" (.str href)
  let rp2 := setP loc rp1.1 rp1.2 "yamltype" (.str href)
  let rp3 := setP loc rp2.1 rp2.2 "longformtype" (.str href)
  let rp4 := enumStep loc rp3.1 rp3.2
  (rp4.1, rp4.2, childArts ++ [art])

/-- The member dict comprehension of the object case, parameterized by
the walk of one member node (keeps the walker's recursion structural on
its fuel): walk each member with the path extended by its name,
threading the live root. -/
def walkMembersWith
    (walkOne : Json → String → Json → Option (List String) → List String →
      Except DocsErr (Json × Json × List DocArtifact))
    (srcKey : Option String) (loc : Option (List String)) (proppath : List String) :
    Json → List (String × Json) →
      Except DocsErr (Json × List (String × Json) × List DocArtifact)
  | root, [] => .ok (root, [], [])
  | root, (name, v) :: rest =>
    let childLoc :=
      match loc, srcKey with
      | some q, some k => some (q ++ [k, name])
      | _, _ => none
    match walkOne root name v childLoc (proppath ++ [name]) with
    | .error e => .error e
    | .ok (root', v', arts) =>
      match walkMembersWith walkOne srcKey loc proppath root' rest with
      | .error e => .error e
      | .ok (root'', rest', arts') => .ok (root'', (name, v') :: rest', arts ++ arts')

/-- Embedding of `Project._set_docs_properties`.  Returns the new live
root schema, the annotated node, and the side artifacts written (in
write order, children before the parent). -/
def setDocsProps (fuel : Nat) (typeName : String) (root : Json) (propname : String)
    (prop0 : Json) (loc0 : Option (List String)) (proppath : List String) :
    Except DocsErr (Json × Json × List DocArtifact) :=
  match fuel with
  | 0 => .error .fuel
  | fuel + 1 =>
    match refStep root prop0 loc0 with
    | .error e => .error e
    | .ok (prop1, loc) =>
      match flagsStep root prop1 loc proppath with
      | .error e => .error e
      | .ok (root1, prop3) =>
        match typeTag prop3 with
        | .error e => .error e
        | .ok t =>
          match BASIC_TYPE_MAPPINGS t with
          | some mapped =>
            let rp := setP loc root1 prop3 "jsontype" (.str mapped)
            let rp := setP loc rp.1 rp.2 "yamltype" (.str mapped)
            let rp := setP loc rp.1 rp.2 "longformtype" (.str mapped)
            let rp := enumStep loc rp.1 rp.2
            .ok (rp.1, rp.2, [])
          | none =>
            if t = "array" then
              match prop3.get? "items" with
              | none => .error .missingItems   -- prop["items"] raises KeyError
              | some items =>
                match setDocsProps fuel typeName root1 propname items
                    (loc.map (· ++ ["items"])) proppath with
                | .error e => .error e
                | .ok (root2, items', arts) =>
                  let prop4 :=
                    match loc with
                    | some q => (root2.getAt q).getD prop3
                    | none =>
                      if (items.get? "$ref").isSome then prop3
                      else prop3.setKey "items" items'
                  let rp := setP loc root2 prop4 "arrayitems" items'
                  let rp := setP loc rp.1 rp.2 "jsontype"
                    (.str ("[ " ++ displayField items' "jsontype" ++ ", ... ]"))
                  let rp := setP loc rp.1 rp.2 "yamltype"
                    (.str ("\n      - " ++ displayField items' "longformtype"))
                  let rp := setP loc rp.1 rp.2 "longformtype"
                    (.str ("List of " ++ displayField items' "longformtype"))
                  let rp := enumStep loc rp.1 rp.2
                  .ok (rp.1, rp.2, arts)
            else if t = "object" then
              match membersOf prop3 with
              | .error e => .error e
              | .ok (srcKey, fields) =>
                match walkMembersWith
                    (fun r n v l pp => setDocsProps fuel typeName r n v l pp)
                    srcKey loc proppath root1 fields with
                | .error e => .error e
                | .ok (root2, members', childArts) =>
                  .ok (objectBranchResult typeName propname root2 prop3 loc proppath
                    srcKey fields members' childArts)
            else
              let rp := setP loc root1 prop3 "jsontype" (.str "Unknown")
              let rp := setP loc rp.1 rp.2 "yamltype" (.str "Unknown")
              let rp := setP loc rp.1 rp.2 "longformtype" (.str "Unknown")
              let rp := enumStep loc rp.1 rp.2
              .ok (rp.1, rp.2, [])

/-- The member walk at a fixed fuel (the form `generate_docs` calls). -/
def walkMembers (fuel : Nat) (typeName : String) (root : Json) (srcKey : Option String)
    (fields : List (String × Json)) (loc : Option (List String)) (proppath : List String) :
    Except DocsErr (Json × List (String × Json) × List DocArtifact) :=
  walkMembersWith (fun r n v l pp => setDocsProps fuel typeName r n v l pp)
    srcKey loc proppath root fields

/-- The annotated docs deep copy plus the README rendering inputs. -/
structure DocsOutput where
  schema : Json                  -- the final value of self.schema
  docsSchema : Json              -- the annotated deep copy
  artifacts : List DocArtifact   -- nested-object side files, in write order
  readmeRef : Option String
  readmeRefLogs : List PrimaryIdLog
  readmeGetAtt : List GettableAtt
deriving DecidableEq, Repr

/-- Embedding of `Project.generate_docs`: skip with a warning when type
info or schema is missing or the schema has no `properties` key;
otherwise deep-copy the schema, annotate every property, and collect the
README inputs.  The first component of the result is the value of
`self.schema` after the call. -/
def generateDocs (fuel : Nat) (typeInfo : List String) (schema : Option Json) :
    Except DocsErr (Option Json × Option DocsOutput) :=
  match schema with
  | none => .ok (none, none)
  | some s =>
    if typeInfo.isEmpty || !s.truthy then .ok (some s, none)
    else
      match s.get? "properties" with
      | none => .ok (some s, none)
      | some (.obj fields) =>
        let typeName := strJoinWith "::" typeInfo
        match walkMembers fuel typeName s none fields none [] with
        | .error e => .error e
        | .ok (root', members', arts) =>
          let docsSchema := s.setKey "properties" (.obj members')
          match getDocsPrimaryIdentifier docsSchema with
          | .error e => .error e
          | .ok (ref, logs) =>
            match getDocsGettableAtts docsSchema with
            | .error e => .error e
            | .ok getatt =>
              .ok (some root',
                some { schema := root', docsSchema, artifacts := arts, readmeRef := ref,
                       readmeRefLogs := logs, readmeGetAtt := getatt })
      | some _ => .error .badMembers   -- non-dict properties: .items() raises

/-! ### IAM role template synthesis (`Project.generate`) -/

def DEFAULT_ROLE_TIMEOUT_MINUTES : Nat := 120
def MIN_ROLE_TIMEOUT_SECONDS : Nat := 3600
def MAX_ROLE_TIMEOUT_SECONDS : Nat := 43200

def SETTINGS_FILENAME : String := ".rpdk-config"
def SCHEMA_UPLOAD_FILENAME : String := "schema.json"
def OVERRIDES_FILENAME : String := "overrides.json"
def ROLE_TEMPLATE_FILENAME : String := "resource-role.yaml"

/-- Lexicographic code-point comparison of character lists: the
comparison Python's `sorted` applies to strings.  (Mathlib's
`String.decidableLE` is iterator-based and does not reduce in the
kernel, so the embedding carries its own.) -/
def charListLe : List Char → List Char → Bool
  | [], _ => true
  | _ :: _, [] => false
  | a :: as, b :: bs =>
    if a.toNat < b.toNat then true
    else if b.toNat < a.toNat then false
    else charListLe as bs

/-- Ascending string order (code-point lexicographic, as in Python). -/
def strLe (a b : String) : Prop := charListLe a.data b.data = true

instance : DecidableRel strLe := fun _ _ => instDecidableEqBool _ _

instance : IsTotal String strLe := by
  constructor
  intro a b
  show charListLe a.data b.data = true ∨ charListLe b.data a.data = true
  generalize a.data = as
  generalize b.data = bs
  induction as generalizing bs with
  | nil => left; rfl
  | cons x xs ih =>
    cases bs with
    | nil => right; rfl
    | cons y ys =>
      rcases Nat.lt_trichotomy x.toNat y.toNat with h | h | h
      · left; simp [charListLe, h]
      · rcases ih ys with h2 | h2
        · left; simp [charListLe, h, h2]
        · right; simp [charListLe, h, h2]
      · right; simp [charListLe, h]

instance : IsTrans String strLe := by
  constructor
  intro a b c hab hbc
  show charListLe a.data c.data = true
  have key : ∀ (x y : Char) (xs ys : List Char), charListLe (x :: xs) (y :: ys) = true ↔
      (x.toNat < y.toNat ∨
        (¬ x.toNat < y.toNat ∧ ¬ y.toNat < x.toNat ∧ charListLe xs ys = true)) := by
    intro x y xs ys
    by_cases h : x.toNat < y.toNat
    · simp [charListLe, h]
    · by_cases h' : y.toNat < x.toNat
      · simp [charListLe, h, h']
      · simp [charListLe, h, h']
  have main : ∀ (as bs cs : List Char), charListLe as bs = true →
      charListLe bs cs = true → charListLe as cs = true := by
    intro as
    induction as with
    | nil => intro bs cs _ _; rfl
    | cons x xs ih =>
      intro bs cs h1 h2
      cases bs with
      | nil => simp [charListLe] at h1
      | cons y ys =>
        cases cs with
        | nil => simp [charListLe] at h2
        | cons z zs =>
          rw [key] at h1 h2 ⊢
          rcases h1 with h1 | ⟨h1a, h1b, h1c⟩
          · rcases h2 with h2 | ⟨h2a, h2b, h2c⟩
            · left; omega
            · left; omega
          · rcases h2 with h2 | ⟨h2a, h2b, h2c⟩
            · left; omega
            · right; exact ⟨by omega, by omega, ih ys zs h1c h2c⟩
  exact main a.data b.data c.data hab hbc

/-- One handler entry of the schema's `handlers` map; an absent
`permissions` key reads as `[]` and an absent `timeoutInMinutes` key as
the 120-minute default, via `dict.get` in the source. -/
structure Handler where
  permissions : Option (List String) := none
  timeoutInMinutes : Option Nat := none
deriving DecidableEq, Repr

/-- The values interpolated into the `resource-role.yml` template. -/
structure RoleTemplate where
  typeName : String
  actions : List String
  permission : String
  roleSessionTimeout : Nat
deriving DecidableEq, Repr

/-- The set comprehension over every handler's permissions (a Python set:
order-free, duplicate-free; modelled as a deduplicated list). -/
def handlerActions (handlers : List (String × Handler)) : List String :=
  ((handlers.map fun h => h.2.permissions.getD []).flatten).dedup

/-- `max(handler timeouts, default=120)` over the handlers map. -/
def maxHandlerTimeout (handlers : List (String × Handler)) : Nat :=
  match handlers.map (fun h => h.2.timeoutInMinutes.getD DEFAULT_ROLE_TIMEOUT_MINUTES) with
  | [] => DEFAULT_ROLE_TIMEOUT_MINUTES
  | t :: ts => ts.foldl max t

/-- The role-template values rendered by `Project.generate` when the
schema declares handlers: discard empty-string actions, substitute a
denied wildcard when no actions remain, sort ascending otherwise, and
clamp the 70-seconds-per-minute session timeout to [3600, 43200]. -/
def roleTemplateFor (hypenatedName : String) (handlers : List (String × Handler)) :
    RoleTemplate :=
  let roleSessionTimeout :=
    min MAX_ROLE_TIMEOUT_SECONDS (max MIN_ROLE_TIMEOUT_SECONDS (70 * maxHandlerTimeout handlers))
  let actions := (handlerActions handlers).filter (· ≠ "")
  if actions.isEmpty then
    { typeName := hypenatedName, actions := ["*"], permission := "Deny", roleSessionTimeout }
  else
    { typeName := hypenatedName, actions := List.insertionSort strLe actions,
      permission := "Allow", roleSessionTimeout }

/-- The role-template file write of `Project.generate`: produced exactly
when the schema has a `handlers` key (`none` models no key, `some hs`
models the declared map). -/
def generateRoleTemplate (hypenatedName : String)
    (handlers : Option (List (String × Handler))) : Option (String × RoleTemplate) :=
  handlers.map fun hs => (ROLE_TEMPLATE_FILENAME, roleTemplateFor hypenatedName hs)

/-! ### `Project.overwrite` and `Project.safewrite` -/

/-- The files of a directory, path to contents. -/
abbrev FileSystem := List (String × String)

def fsRead (fs : FileSystem) (path : String) : Option String :=
  match fs with
  | [] => none
  | (p, c) :: rest => if p = path then some c else fsRead rest path

def fsWrite (fs : FileSystem) (path contents : String) : FileSystem :=
  match fs with
  | [] => [(path, contents)]
  | (p, c) :: rest =>
    if p = path then (path, contents) :: rest else (p, c) :: fsWrite rest path contents

inductive WriteLog where
  | fileExistsWarning (path : String)   -- LOG.warning("File already exists, ...")
deriving DecidableEq, Repr

/-- Embedding of `Project.overwrite` (`open("w")`). -/
def overwrite (fs : FileSystem) (path contents : String) : FileSystem × List WriteLog :=
  (fsWrite fs path contents, [])

/-- Embedding of `Project.safewrite`: with overwriting disabled the
exclusive-create `open("x")` raises `FileExistsError` on an existing
path, which is caught and only logged. -/
def safewrite (overwriteEnabled : Bool) (fs : FileSystem) (path contents : String) :
    FileSystem × List WriteLog :=
  if overwriteEnabled then overwrite fs path contents
  else
    match fsRead fs path with
    | some _ => (fs, [.fileExistsWarning path])
    | none => (fsWrite fs path contents, [])

/-! ### Submission pipeline
(`Project.submit`, `Project._upload`, `Project._wait_for_registration`) -/

structure ClientError where
  msg : String := ""
deriving DecidableEq, Repr

structure WaiterError where
  msg : String := ""
deriving DecidableEq, Repr

/-- The `describe_type_registration` response fields the source reads. -/
structure DescribeResponse where
  status : String := ""
  statusMessage : String := ""    -- the human-readable failure reason
  typeVersionArn : String := ""
deriving DecidableEq, Repr

/-- The original error preserved as `raise ... from cause`. -/
inductive FailureCause where
  | fromWaiter (e : WaiterError)
  | fromClient (e : ClientError)
deriving DecidableEq, Repr

inductive SubmitError where
  | downstream (msg : String) (cause : FailureCause)   -- DownstreamError(msg) from cause
  | clientError (e : ClientError)                      -- an uncaught ClientError
deriving DecidableEq, Repr

/-- The remote operations of the pipeline, in call order. -/
inductive RemoteCall where
  | createOrUpdateRole
  | upload
  | getLogDeliveryRoleArn
  | registerType (hasExecutionRole : Bool)
  | waiterWait
  | describeTypeRegistration
  | setTypeDefaultVersion
deriving DecidableEq, Repr

inductive SubmitLog where
  | dryRunComplete
  | waitingForRegistration
  | failedToRegister
  | seeResponse (response : DescribeResponse)   -- the response reaches only the log
  | registrationComplete
  | describeLogged (response : DescribeResponse)
  | setDefaultLogged (arn : String)
deriving DecidableEq, Repr

/-- Oracle of remote-call results: what each client primitive would
return if called (the trace records which ones actually are). -/
structure RegistryEnv where
  createdRoleArn : String := ""
  s3Url : String := ""
  logDeliveryRoleArn : String := ""
  registerResult : Except ClientError String := .ok ""
  waitResult : Except WaiterError Unit := .ok ()
  describeResult : Except ClientError DescribeResponse := .ok {}
  setDefaultResult : Except ClientError Unit := .ok ()
deriving DecidableEq, Repr

/-- Embedding of `Project._wait_for_registration`: block on the waiter;
on waiter failure describe the registration once, log the response and
raise a fixed-message downstream error chained to the waiter error, or —
if the diagnostic call itself fails — one chained to the describe error;
on success describe once (uncaught on failure) and optionally promote
the default version. -/
def waitForRegistration (env : RegistryEnv) (setDefault : Bool) :
    Except SubmitError Unit × List RemoteCall × List SubmitLog :=
  match env.waitResult with
  | .error e =>
    match env.describeResult with
    | .error d =>
      (.error (.downstream "Error describing type registration" (.fromClient d)),
       [.waiterWait, .describeTypeRegistration],
       [.waitingForRegistration, .failedToRegister])
    | .ok response =>
      (.error (.downstream "Type registration error" (.fromWaiter e)),
       [.waiterWait, .describeTypeRegistration],
       [.waitingForRegistration, .failedToRegister, .seeResponse response])
  | .ok _ =>
    match env.describeResult with
    | .error d =>
      (.error (.clientError d),
       [.waiterWait, .describeTypeRegistration],
       [.waitingForRegistration, .registrationComplete])
    | .ok response =>
      if setDefault then
        match env.setDefaultResult with
        | .error e =>
          (.error (.downstream "Error setting default version" (.fromClient e)),
           [.waiterWait, .describeTypeRegistration, .setTypeDefaultVersion],
           [.waitingForRegistration, .registrationComplete, .describeLogged response])
        | .ok _ =>
          (.ok (),
           [.waiterWait, .describeTypeRegistration, .setTypeDefaultVersion],
           [.waitingForRegistration, .registrationComplete, .describeLogged response,
            .setDefaultLogged response.typeVersionArn])
      else
        (.ok (),
         [.waiterWait, .describeTypeRegistration],
         [.waitingForRegistration, .registrationComplete, .describeLogged response])

/-- Python truthiness of an optional string (`not role_arn`). -/
def strOptTruthy : Option String → Bool
  | none => false
  | some s => s ≠ ""

/-- The guard of the role-provisioning step:
`use_role and not role_arn and "handlers" in self.schema`. -/
def uploadNeedsRole (useRole : Bool) (roleArn : Option String) (schemaHasHandlers : Bool) :
    Bool :=
  useRole && !strOptTruthy roleArn && schemaHasHandlers

/-- Embedding of `Project._upload`: optionally provision the execution
role first, then upload the archive, read the log-delivery role, register
the type (a client error becomes a fixed downstream error) and wait. -/
def uploadStep (env : RegistryEnv) (schemaHasHandlers : Bool) (roleArn : Option String)
    (useRole setDefault : Bool) :
    Except SubmitError Unit × List RemoteCall × List SubmitLog :=
  let provisionRole := uploadNeedsRole useRole roleArn schemaHasHandlers
  let roleArn' := if provisionRole then some env.createdRoleArn else roleArn
  let roleCalls := if provisionRole then [RemoteCall.createOrUpdateRole] else []
  let hasExecRole := strOptTruthy roleArn' && useRole   -- if role_arn and use_role
  match env.registerResult with
  | .error e =>
    (.error (.downstream "Unknown CloudFormation error" (.fromClient e)),
     roleCalls ++ [.upload, .getLogDeliveryRoleArn, .registerType hasExecRole], [])
  | .ok _token =>
    let (res, calls, logs) := waitForRegistration env setDefault
    (res, roleCalls ++ [.upload, .getLogDeliveryRoleArn, .registerType hasExecRole] ++ calls,
     logs)

/-- `self.hypenated_name` (source spelling): dash-joined lowercase type
identity. -/
def hypenatedName (typeInfo : List String) : String :=
  lowerString (strJoinWith "-" typeInfo)

/-- The archive assembled by `Project.submit`: schema and settings at
fixed entry names, the optional overrides document when present on disk,
plus opaque per-language entries added by the plugin. -/
structure ArchiveSpec where
  entries : List String
deriving DecidableEq, Repr

def packageArchive (overridesExist : Bool) (pluginEntries : List String) : ArchiveSpec :=
  { entries := [SCHEMA_UPLOAD_FILENAME, SETTINGS_FILENAME]
      ++ (if overridesExist then [OVERRIDES_FILENAME] else []) ++ pluginEntries }

structure SubmitResult where
  localWrites : List (String × ArchiveSpec)   -- files left on disk by the call
  outcome : Except SubmitError Unit
  remoteCalls : List RemoteCall
  logs : List SubmitLog
deriving DecidableEq, Repr

/-- Embedding of `Project.submit`: a dry run writes the archive to
`<hypenated-name>.zip` and returns without remote calls; otherwise the
archive goes to a temporary file (no local write survives) and the
upload pipeline runs. -/
def submit (typeInfo : List String) (overridesExist : Bool) (pluginEntries : List String)
    (env : RegistryEnv) (dryRun : Bool) (schemaHasHandlers : Bool) (roleArn : Option String)
    (useRole setDefault : Bool) : SubmitResult :=
  let archive := packageArchive overridesExist pluginEntries
  if dryRun then
    { localWrites := [(hypenatedName typeInfo ++ ".zip", archive)], outcome := .ok (),
      remoteCalls := [], logs := [.dryRunComplete] }
  else
    let (outcome, calls, logs) := uploadStep env schemaHasHandlers roleArn useRole setDefault
    { localWrites := [], outcome, remoteCalls := calls, logs }

/-! ### Concrete example values -/

/-- A schema whose property `p` reaches its type through a `$ref`
indirection into `definitions`. -/
def refSchemaC1 : Json := .obj [
  ("typeName", .str "AWS::Test::Res"),
  ("properties", .obj [("p", .obj [("$ref", .str "#/definitions/D")])]),
  ("definitions", .obj [("D", .obj [("type", .str "string")])])]

/-- What `self.schema` holds after documentation generation over
`refSchemaC1`: the `$ref` target inside the original schema has been
annotated in place. -/
def refSchemaC1Mutated : Json := .obj [
  ("typeName", .str "AWS::Test::Res"),
  ("properties", .obj [("p", .obj [("$ref", .str "#/definitions/D")])]),
  ("definitions", .obj [("D", .obj [
    ("type", .str "string"), ("jsontype", .str "String"),
    ("yamltype", .str "String"), ("longformtype", .str "String")])])]

/-- A registry whose waiter reports failure while the diagnostic
describe succeeds with a descriptive failure reason. -/
def failedWaitEnv : RegistryEnv :=
  { waitResult := .error { msg := "waiter terminal failure" },
    describeResult := .ok { status := "FAILED", statusMessage := "REASON123" } }

/-! ## Helper lemmas -/

theorem lookupField_setField_self (fs : List (String × Json)) (k : String) (v : Json) :
    lookupField (setField fs k v) k = some v := by
  induction fs with
  | nil => simp [setField, lookupField]
  | cons p fs ih =>
    by_cases h : p.1 = k <;> simp [setField, lookupField, h, ih]

theorem lookupField_setField_ne (fs : List (String × Json)) (k k' : String) (v : Json)
    (h : k' ≠ k) : lookupField (setField fs k v) k' = lookupField fs k' := by
  have hk : ¬ k = k' := fun hh => h hh.symm
  induction fs with
  | nil => simp [setField, lookupField, hk]
  | cons p fs ih =>
    by_cases hp : p.1 = k
    · simp [setField, lookupField, hp, hk]
    · simp [setField, lookupField, hp, ih]

theorem setKey_obj (fs : List (String × Json)) (k : String) (v : Json) :
    (Json.obj fs).setKey k v = .obj (setField fs k v) := rfl

theorem get?_setKey_self (fs : List (String × Json)) (k : String) (v : Json) :
    ((Json.obj fs).setKey k v).get? k = some v := by
  simp [setKey_obj, Json.get?, lookupField_setField_self]

theorem get?_setKey_ne (fs : List (String × Json)) (k k' : String) (v : Json) (h : k' ≠ k) :
    ((Json.obj fs).setKey k v).get? k' = (Json.obj fs).get? k' := by
  simp [setKey_obj, Json.get?, lookupField_setField_ne fs k k' v h]

theorem setP_snd (loc : Option (List String)) (root prop : Json) (k : String) (v : Json) :
    (setP loc root prop k v).2 = prop.setKey k v := by
  cases loc <;> rfl

/-! ## Claim C9 -/

/-- Claim C9 (confirmed): with `dry_run` true, `submit` performs no
remote operation at all — the result of the call is exactly the local
write of the packaged archive to `<hypenated-name>.zip`, a successful
return, an empty remote-call trace and the dry-run log line. -/
theorem dry_run_performs_no_remote_operation (typeInfo : List String)
    (overridesExist : Bool) (pluginEntries : List String) (env : RegistryEnv)
    (hasHandlers : Bool) (roleArn : Option String) (useRole setDefault : Bool) :
    submit typeInfo overridesExist pluginEntries env true hasHandlers roleArn
        useRole setDefault =
      { localWrites := [(hypenatedName typeInfo ++ ".zip",
          packageArchive overridesExist pluginEntries)],
        outcome := .ok (), remoteCalls := [], logs := [.dryRunComplete] } := by
  simp [submit]

/-! ## Claim C10 -/

/-- Claim C10 (confirmed): with overwriting disabled, `safewrite` to an
existing path leaves the file system unchanged and does not raise — the
`FileExistsError` is caught and only the warning is logged. -/
theorem safewrite_existing_file_untouched (fs : FileSystem) (path contents : String)
    (h : (fsRead fs path).isSome) :
    safewrite false fs path contents = (fs, [.fileExistsWarning path]) := by
  unfold safewrite
  cases hc : fsRead fs path with
  | none => rw [hc] at h; cases h
  | some c => simp

/-- Witness for C10 at a concrete one-file file system. -/
theorem safewrite_existing_file_untouched_witness :
    (fsRead [("a.txt", "old")] "a.txt").isSome = true ∧
    safewrite false [("a.txt", "old")] "a.txt" "new" =
      ([("a.txt", "old")], [.fileExistsWarning "a.txt"]) :=
  ⟨by decide, safewrite_existing_file_untouched [("a.txt", "old")] "a.txt" "new" (by decide)⟩

/-! ## Claim C5 -/

/-- Counterexample to claim C5 as stated: a `primaryIdentifier` with two
entries resolves to an absent display value, but no warning is logged —
the `len(primary_id) == 1` guard falls through to `return None` without
reaching the warning statement. -/
theorem multi_entry_primary_identifier_logs_no_warning :
    getDocsPrimaryIdentifier (.obj [("primaryIdentifier",
      .arr [.str "/properties/a", .str "/properties/b"])]) = .ok (none, []) := by decide

/-- Claim C5 (corrected): a single-entry `primaryIdentifier` of the form
`/properties/<id>` resolves to `<id>`; a list of two or more entries
resolves to an absent value with no logged warning; a single entry with
more than one segment under `/properties` resolves to an absent value
with the nested-identifier warning.  None of these raises. -/
theorem primary_identifier_resolution (schema : Json) (ids : List Json)
    (hpid : schema.get? "primaryIdentifier" = some (.arr ids)) :
    (2 ≤ ids.length → getDocsPrimaryIdentifier schema = .ok (none, [])) ∧
    (∀ s x, ids = [.str s] → fragmentDecode "" s = some ["properties", x] →
      getDocsPrimaryIdentifier schema = .ok (some x, [])) ∧
    (∀ s path, ids = [.str s] → fragmentDecode "" s = some path →
      (path.drop 1).length ≠ 1 →
      getDocsPrimaryIdentifier schema = .ok (none, [.nestedPrimaryIdentifier])) := by
  unfold getDocsPrimaryIdentifier
  rw [hpid]
  refine ⟨?_, ?_, ?_⟩
  · intro hlen
    match ids, hlen with
    | x :: y :: rest, _ => rfl
  · intro s x hids hdec
    subst hids
    simp [hdec]
  · intro s path hids hdec hlen
    subst hids
    simp only [hdec]
    rcases hdp : path.drop 1 with _ | ⟨y, _ | ⟨z, t⟩⟩
    · simp [hdp]
    · exact absurd (by rw [hdp]; rfl) hlen
    · simp [hdp]

/-- Witness for C5 at the spec's own example pointers. -/
theorem primary_identifier_resolution_witness :
    (Json.obj [("primaryIdentifier", .arr [.str "/properties/id"])]).get? "primaryIdentifier" =
      some (.arr [.str "/properties/id"]) ∧
    getDocsPrimaryIdentifier (.obj [("primaryIdentifier", .arr [.str "/properties/id"])]) =
      .ok (some "id", []) :=
  ⟨by decide,
   (primary_identifier_resolution _ [.str "/properties/id"] (by decide)).2.1
     "/properties/id" "id" rfl (by decide)⟩

/-! ## Claim C2 -/

/-- Counterexample to claim C2 as stated: when the waiter fails and the
diagnostic describe succeeds, the raised downstream failure carries the
fixed message "Type registration error", which does not include the
described failure reason ("REASON123" here); the reason reaches only the
log. -/
theorem wait_failure_message_lacks_reason :
    (waitForRegistration failedWaitEnv false).1 =
      .error (.downstream "Type registration error"
        (.fromWaiter { msg := "waiter terminal failure" })) ∧
    strContains "Type registration error" "REASON123" = false ∧
    SubmitLog.seeResponse { status := "FAILED", statusMessage := "REASON123" } ∈
      (waitForRegistration failedWaitEnv false).2.2 := by decide

/-- Claim C2 (corrected): when the waiter reports failure the pipeline
performs exactly one diagnostic `describe_type_registration` call; if
that diagnostic succeeds, its response is logged and a downstream
failure with the fixed message "Type registration error" chained to the
waiter error is raised (the described reason is not part of the
message); if the diagnostic itself fails, a downstream failure "Error
describing type registration" chained to the describe error is raised
instead of swallowing it. -/
theorem wait_failure_diagnostic (env : RegistryEnv) (setDefault : Bool) (w : WaiterError)
    (hw : env.waitResult = .error w) :
    (waitForRegistration env setDefault).2.1.count .describeTypeRegistration = 1 ∧
    (∀ r, env.describeResult = .ok r →
      (waitForRegistration env setDefault).1 =
        .error (.downstream "Type registration error" (.fromWaiter w)) ∧
      SubmitLog.seeResponse r ∈ (waitForRegistration env setDefault).2.2) ∧
    (∀ d, env.describeResult = .error d →
      (waitForRegistration env setDefault).1 =
        .error (.downstream "Error describing type registration" (.fromClient d))) := by
  cases hd : env.describeResult with
  | error d =>
    refine ⟨by simp [waitForRegistration, hw, hd], ?_, ?_⟩
    · intro r hr
      cases hr
    · intro d' hd'
      cases hd'
      simp [waitForRegistration, hw, hd]
  | ok r =>
    refine ⟨by simp [waitForRegistration, hw, hd], ?_, ?_⟩
    · intro r' hr
      cases hr
      simp [waitForRegistration, hw, hd]
    · intro d' hd'
      cases hd'

/-- Witness for C2 at a concrete failing registry. -/
theorem wait_failure_diagnostic_witness :
    failedWaitEnv.waitResult = .error { msg := "waiter terminal failure" } ∧
    (waitForRegistration failedWaitEnv false).2.1.count .describeTypeRegistration = 1 :=
  ⟨rfl, (wait_failure_diagnostic failedWaitEnv false _ rfl).1⟩

/-! ## Claim C3 -/

/-- No role provisioning happens inside the registration wait. -/
theorem waitForRegistration_calls_no_role (env : RegistryEnv) (setDefault : Bool) :
    RemoteCall.createOrUpdateRole ∉ (waitForRegistration env setDefault).2.1 := by
  cases hw : env.waitResult <;> cases hd : env.describeResult <;>
    cases setDefault <;> cases hs : env.setDefaultResult <;>
      simp [waitForRegistration, hw, hd, hs]

/-- The remote trace of `_upload` starts with the conditional role
provisioning, immediately followed by the upload, and role provisioning
never occurs later. -/
theorem uploadStep_trace_shape (env : RegistryEnv) (hasHandlers : Bool)
    (roleArn : Option String) (useRole setDefault : Bool) :
    ∃ rest, (uploadStep env hasHandlers roleArn useRole setDefault).2.1 =
      (if uploadNeedsRole useRole roleArn hasHandlers then [RemoteCall.createOrUpdateRole]
        else []) ++ RemoteCall.upload :: rest ∧
      RemoteCall.createOrUpdateRole ∉ rest := by
  cases hr : env.registerResult with
  | error e =>
    refine ⟨[.getLogDeliveryRoleArn, .registerType
      (strOptTruthy (if uploadNeedsRole useRole roleArn hasHandlers then
        some env.createdRoleArn else roleArn) && useRole)], ?_, by simp⟩
    simp [uploadStep, hr]
  | ok tok =>
    refine ⟨.getLogDeliveryRoleArn :: .registerType
      (strOptTruthy (if uploadNeedsRole useRole roleArn hasHandlers then
        some env.createdRoleArn else roleArn) && useRole) ::
      (waitForRegistration env setDefault).2.1, ?_, ?_⟩
    · simp [uploadStep, hr]
    · simp [waitForRegistration_calls_no_role env setDefault]

/-- Counterexample to claim C3 as stated: with execution-role usage
requested, no explicit role ARN and handlers declared, the full remote
trace begins with role provisioning and only then the upload — the
archive upload does not happen before execution-role provisioning. -/
theorem role_provisioned_before_upload_counterexample :
    (uploadStep {} true none true false).2.1 =
      [RemoteCall.createOrUpdateRole, RemoteCall.upload, RemoteCall.getLogDeliveryRoleArn,
       RemoteCall.registerType false, RemoteCall.waiterWait,
       RemoteCall.describeTypeRegistration] := by decide

/-- Claim C3 (corrected): the pipeline's order is PACKAGED →
ROLE_PROVISIONED (optional) → UPLOADED → REGISTERING: role provisioning
is entered exactly when the caller requested execution-role usage, no
truthy role ARN was supplied and the schema declares handlers, and when
entered it happens immediately before the archive upload, not after
it. -/
theorem role_provisioning_guard_and_order (env : RegistryEnv) (hasHandlers : Bool)
    (roleArn : Option String) (useRole setDefault : Bool) :
    (RemoteCall.createOrUpdateRole ∈ (uploadStep env hasHandlers roleArn useRole setDefault).2.1
      ↔ (useRole = true ∧ strOptTruthy roleArn = false ∧ hasHandlers = true)) ∧
    (useRole = true → strOptTruthy roleArn = false → hasHandlers = true →
      ∃ rest, (uploadStep env hasHandlers roleArn useRole setDefault).2.1 =
        RemoteCall.createOrUpdateRole :: RemoteCall.upload :: rest ∧
        RemoteCall.createOrUpdateRole ∉ rest) := by
  have hguard : uploadNeedsRole useRole roleArn hasHandlers = true ↔
      (useRole = true ∧ strOptTruthy roleArn = false ∧ hasHandlers = true) := by
    simp [uploadNeedsRole, Bool.and_eq_true, Bool.not_eq_true', and_assoc]
  obtain ⟨rest, htr, hrest⟩ :=
    uploadStep_trace_shape env hasHandlers roleArn useRole setDefault
  constructor
  · constructor
    · intro hmem
      apply hguard.mp
      cases hc : uploadNeedsRole useRole roleArn hasHandlers
      · exfalso
        rw [htr, hc] at hmem
        simp at hmem
        exact hrest hmem
      · rfl
    · intro htriple
      rw [htr, hguard.mpr htriple]
      simp
  · intro h1 h2 h3
    refine ⟨rest, ?_, hrest⟩
    rw [htr, hguard.mpr ⟨h1, h2, h3⟩]
    simp

/-- Witness for C3 at a concrete registry environment. -/
theorem role_provisioning_guard_and_order_witness :
    ∃ rest, (uploadStep {} true none true false).2.1 =
      RemoteCall.createOrUpdateRole :: RemoteCall.upload :: rest ∧
      RemoteCall.createOrUpdateRole ∉ rest :=
  (role_provisioning_guard_and_order {} true none true false).2 rfl rfl rfl

/-! ## Claim C8 -/

theorem foldl_max_fixed (l : List Nat) (acc : Nat) (h : ∀ x ∈ l, x ≤ acc) :
    l.foldl max acc = acc := by
  induction l generalizing acc with
  | nil => rfl
  | cons x xs ih =>
    simp only [List.foldl_cons]
    rw [max_eq_left (h x (by simp))]
    exact ih _ fun y hy => h y (by simp [hy])

/-- With no timeout declared anywhere, the handler maximum is the
120-minute default. -/
theorem maxHandlerTimeout_all_default (hs : List (String × Handler))
    (h : ∀ p ∈ hs, p.2.timeoutInMinutes = none) :
    maxHandlerTimeout hs = DEFAULT_ROLE_TIMEOUT_MINUTES := by
  unfold maxHandlerTimeout
  cases hm : hs.map (fun p => p.2.timeoutInMinutes.getD DEFAULT_ROLE_TIMEOUT_MINUTES) with
  | nil => rfl
  | cons t ts =>
    have hall : ∀ x ∈ t :: ts, x = DEFAULT_ROLE_TIMEOUT_MINUTES := by
      rw [← hm]
      intro x hx
      obtain ⟨p, hp, rfl⟩ := List.mem_map.mp hx
      rw [h p hp]
      rfl
    have ht := hall t (by simp)
    change List.foldl max t ts = DEFAULT_ROLE_TIMEOUT_MINUTES
    rw [foldl_max_fixed ts t fun y hy => by rw [hall y (by simp [hy]), ht]]
    exact ht

/-- The session timeout of the role template, before branching on the
action set. -/
theorem roleTemplateFor_timeout (name : String) (hs : List (String × Handler)) :
    (roleTemplateFor name hs).roleSessionTimeout =
      min MAX_ROLE_TIMEOUT_SECONDS
        (max MIN_ROLE_TIMEOUT_SECONDS (70 * maxHandlerTimeout hs)) := by
  unfold roleTemplateFor
  dsimp only
  split <;> rfl

/-- Claim C8 (confirmed): the role-template file is produced if and only
if the schema declares a `handlers` key, and when handlers are present
but declare no timeouts the session timeout still defaults from 120
minutes (70 × 120 = 8400 seconds, inside the clamp). -/
theorem role_template_generation_iff_handlers (name : String)
    (handlers : Option (List (String × Handler))) :
    ((generateRoleTemplate name handlers).isSome ↔ handlers.isSome) ∧
    (∀ hs, handlers = some hs → (∀ p ∈ hs, p.2.timeoutInMinutes = none) →
      generateRoleTemplate name handlers =
        some (ROLE_TEMPLATE_FILENAME, roleTemplateFor name hs) ∧
      (roleTemplateFor name hs).roleSessionTimeout = 8400) := by
  constructor
  · cases handlers <;> simp [generateRoleTemplate]
  · intro hs hh ht
    subst hh
    refine ⟨rfl, ?_⟩
    rw [roleTemplateFor_timeout, maxHandlerTimeout_all_default hs ht]
    decide

/-- Witness for C8: one handler, no timeout declared. -/
theorem role_template_generation_iff_handlers_witness :
    generateRoleTemplate "n" (some [("create", { permissions := some ["s:a"] })]) =
      some (ROLE_TEMPLATE_FILENAME,
        roleTemplateFor "n" [("create", { permissions := some ["s:a"] })]) ∧
    (roleTemplateFor "n" [("create", { permissions := some ["s:a"] })]).roleSessionTimeout =
      8400 :=
  (role_template_generation_iff_handlers "n" _).2 _ rfl (by decide)

/-! ## Claim C4 -/

/-- The actions kept after discarding the empty string, characterized. -/
theorem mem_filtered_actions (hs : List (String × Handler)) (a : String) :
    a ∈ (handlerActions hs).filter (· ≠ "") ↔
      (a ≠ "" ∧ ∃ h ∈ hs, a ∈ h.2.permissions.getD []) := by
  simp only [handlerActions, List.mem_filter, List.mem_dedup, List.mem_flatten,
    List.mem_map, decide_not, Bool.not_eq_eq_eq_not, Bool.not_true, decide_eq_false_iff_not]
  constructor
  · rintro ⟨⟨l, ⟨p, hp, rfl⟩, hal⟩, hne⟩
    exact ⟨hne, p, hp, hal⟩
  · rintro ⟨hne, p, hp, hal⟩
    exact ⟨⟨_, ⟨p, hp, rfl⟩, hal⟩, hne⟩

theorem roleTemplateFor_empty_case (name : String) (hs : List (String × Handler))
    (h : (handlerActions hs).filter (· ≠ "") = []) :
    (roleTemplateFor name hs).actions = ["*"] ∧
    (roleTemplateFor name hs).permission = "Deny" := by
  have hcond : ((handlerActions hs).filter (· ≠ "")).isEmpty = true := by
    rw [h]; rfl
  unfold roleTemplateFor
  dsimp only
  rw [hcond]
  exact ⟨rfl, rfl⟩

theorem roleTemplateFor_nonempty_case (name : String) (hs : List (String × Handler))
    (h : (handlerActions hs).filter (· ≠ "") ≠ []) :
    (roleTemplateFor name hs).actions =
      List.insertionSort strLe ((handlerActions hs).filter (· ≠ "")) ∧
    (roleTemplateFor name hs).permission = "Allow" := by
  have hcond : ((handlerActions hs).filter (· ≠ "")).isEmpty = false := by
    cases hl : (handlerActions hs).filter (· ≠ "") with
    | nil => exact absurd hl h
    | cons x xs => rfl
  unfold roleTemplateFor
  dsimp only
  rw [hcond]
  exact ⟨rfl, rfl⟩

/-- Claim C4 (confirmed): for every handler map the synthesized role
template has actions equal to the ascending sorted, duplicate-free union
of the handlers' permissions with empty strings removed and effect
Allow — or exactly the wildcard action with effect Deny when that union
is empty — and a session timeout of clamp(70 × max handler timeout,
3600, 43200) with 120 minutes substituted for every missing timeout.
The spec's concrete example computes as stated. -/
theorem role_template_synthesis (name : String) (hs : List (String × Handler)) :
    ((roleTemplateFor name hs).roleSessionTimeout =
        min 43200 (max 3600 (70 * maxHandlerTimeout hs)) ∧
      3600 ≤ (roleTemplateFor name hs).roleSessionTimeout ∧
      (roleTemplateFor name hs).roleSessionTimeout ≤ 43200) ∧
    (((roleTemplateFor name hs).permission = "Allow" ∧
        (roleTemplateFor name hs).actions.Sorted strLe ∧
        (roleTemplateFor name hs).actions.Nodup ∧
        ∀ a, a ∈ (roleTemplateFor name hs).actions ↔
          (a ≠ "" ∧ ∃ h ∈ hs, a ∈ h.2.permissions.getD [])) ∨
      ((roleTemplateFor name hs).actions = ["*"] ∧
        (roleTemplateFor name hs).permission = "Deny" ∧
        ∀ a, ¬ (a ≠ "" ∧ ∃ h ∈ hs, a ∈ h.2.permissions.getD []))) ∧
    roleTemplateFor "initech-tps-report"
        [("create", { permissions := some ["a:b", "a:c"], timeoutInMinutes := some 200 }),
         ("read", { permissions := some [], timeoutInMinutes := some 30 })] =
      { typeName := "initech-tps-report", actions := ["a:b", "a:c"],
        permission := "Allow", roleSessionTimeout := 14000 } := by
  refine ⟨⟨roleTemplateFor_timeout name hs, ?_, ?_⟩, ?_, by decide⟩
  · rw [roleTemplateFor_timeout]
    unfold MIN_ROLE_TIMEOUT_SECONDS MAX_ROLE_TIMEOUT_SECONDS
    omega
  · rw [roleTemplateFor_timeout]
    unfold MIN_ROLE_TIMEOUT_SECONDS MAX_ROLE_TIMEOUT_SECONDS
    omega
  · by_cases hemp : (handlerActions hs).filter (· ≠ "") = []
    · right
      obtain ⟨ha, hp⟩ := roleTemplateFor_empty_case name hs hemp
      refine ⟨ha, hp, fun a hcontra => ?_⟩
      have := (mem_filtered_actions hs a).mpr hcontra
      rw [hemp] at this
      cases this
    · left
      obtain ⟨ha, hp⟩ := roleTemplateFor_nonempty_case name hs hemp
      refine ⟨hp, ?_, ?_, ?_⟩
      · rw [ha]
        exact List.sorted_insertionSort strLe _
      · rw [ha]
        exact (List.perm_insertionSort strLe _).nodup_iff.mpr
          ((List.nodup_dedup _).filter _)
      · intro a
        rw [ha, (List.perm_insertionSort strLe _).mem_iff, mem_filtered_actions]

/-! ## Claim C1 -/

/-- Claim C1 is a code bug: documentation generation is meant to operate
on a deep copy of the schema (the source comments "take care not to
modify the master schema" and the spec states the schema is never
mutated), but `_set_docs_properties` resolves a property's `$ref`
against `self.schema` itself and annotates the resolved node in place.
Generating docs for `refSchemaC1`, whose property `p` is a `$ref`
indirection, leaves `self.schema` equal to `refSchemaC1Mutated`: its
`definitions.D` node has gained the three display-type annotations, so
the original in-memory schema did not stay unchanged. -/
theorem generate_docs_mutates_original_schema :
    (generateDocs 10 ["AWS", "Test", "Res"] (some refSchemaC1)).map Prod.fst =
      .ok (some refSchemaC1Mutated) ∧ refSchemaC1Mutated ≠ refSchemaC1 :=
  ⟨by decide, by decide⟩

/-! ## Claims C6 and C7: the object branch of the walker -/

/-- Unfolding of one walker step through the object branch: with the
reference resolved, the flags applied, the node classified `object` and
the members walked, the walker returns exactly the object-branch
result. -/
theorem setDocsProps_object_eq (fuel : Nat) (typeName propname : String)
    (root prop0 prop1 root1 prop3 root2 : Json)
    (loc0 loc : Option (List String)) (proppath : List String)
    (srcKey : Option String) (fields members' : List (String × Json))
    (childArts : List DocArtifact)
    (h1 : refStep root prop0 loc0 = .ok (prop1, loc))
    (h2 : flagsStep root prop1 loc proppath = .ok (root1, prop3))
    (h3 : typeTag prop3 = .ok "object")
    (h4 : membersOf prop3 = .ok (srcKey, fields))
    (h5 : walkMembersWith (fun r n v l pp => setDocsProps fuel typeName r n v l pp)
        srcKey loc proppath root1 fields = .ok (root2, members', childArts)) :
    setDocsProps (fuel + 1) typeName root propname prop0 loc0 proppath =
      .ok (objectBranchResult typeName propname root2 prop3 loc proppath
        srcKey fields members' childArts) := by
  have hbm : BASIC_TYPE_MAPPINGS "object" = none := by decide
  unfold setDocsProps
  rw [h1]
  dsimp only
  rw [h2]
  dsimp only
  rw [h3]
  dsimp only
  rw [hbm]
  dsimp only
  rw [if_neg (by decide : ¬ ("object" = "array")), if_pos rfl]
  rw [h4]
  dsimp only
  rw [h5]

/-- The enum copy never touches another display field. -/
theorem enumStep_snd_get?_ne (loc : Option (List String)) (root : Json)
    (gs : List (String × Json)) (k : String) (hk : k ≠ "allowedvalues") :
    ((enumStep loc root (.obj gs)).2).get? k = (Json.obj gs).get? k := by
  unfold enumStep
  cases he : (Json.obj gs).get? "enum" with
  | none => rfl
  | some e =>
    dsimp only
    rw [setP_snd]
    exact get?_setKey_ne gs "allowedvalues" k e hk

/-- A node without a `$ref` key passes the resolution step unchanged. -/
theorem refStep_no_ref (root : Json) (fs : List (String × Json))
    (loc : Option (List String)) (h : lookupField fs "$ref" = none) :
    refStep root (.obj fs) loc = .ok (.obj fs, loc) := by
  unfold refStep
  dsimp only
  rw [h]

/-- The flag step on a detached node leaves the root untouched and only
conditionally adds the two boolean flags. -/
theorem flagsStep_loc_none (root prop : Json) (proppath : List String) (b1 b2 : Bool)
    (hb1 : ptrListMem root "createOnlyProperties"
      (fragmentEncode "" ("properties" :: proppath)) = .ok b1)
    (hb2 : ptrListMem root "readOnlyProperties"
      (fragmentEncode "" ("properties" :: proppath)) = .ok b2) :
    flagsStep root prop none proppath = .ok (root,
      (if b2 then
        (if b1 then prop.setKey "createonly" (.bool true) else prop).setKey
          "readonly" (.bool true)
       else (if b1 then prop.setKey "createonly" (.bool true) else prop))) := by
  unfold flagsStep
  dsimp only
  rw [hb1]
  cases b1 <;> cases b2 <;> simp [Except.bind, Except.map, setP, hb2]

/-- Claim C6 (confirmed): every node the walker classifies as an object
emits, after its member walk, exactly one side artifact beyond its
members' artifacts, named by the dash-joined lowercased property path
with the `.md` extension, and the returned node's three display fields
all carry the link referencing that artifact's filename.  (The six
equation hypotheses name the walker's own intermediate steps; the last
states that the node, re-read after the member walk, is a dict — which
it always is in CPython, being the same object the members mutated
through.) -/
theorem object_node_emits_one_artifact_with_link (fuel : Nat) (typeName propname : String)
    (root prop0 prop1 root1 prop3 root2 : Json)
    (loc0 loc : Option (List String)) (proppath : List String)
    (srcKey : Option String) (fields members' : List (String × Json))
    (childArts : List DocArtifact) (gs : List (String × Json))
    (h1 : refStep root prop0 loc0 = .ok (prop1, loc))
    (h2 : flagsStep root prop1 loc proppath = .ok (root1, prop3))
    (h3 : typeTag prop3 = .ok "object")
    (h4 : membersOf prop3 = .ok (srcKey, fields))
    (h5 : walkMembersWith (fun r n v l pp => setDocsProps fuel typeName r n v l pp)
        srcKey loc proppath root1 fields = .ok (root2, members', childArts))
    (h6 : resyncObject loc root2 prop3 srcKey fields members' = .obj gs) :
    ∃ root' prop' sch,
      setDocsProps (fuel + 1) typeName root propname prop0 loc0 proppath =
        .ok (root', prop', childArts ++
          [{ filename := lowerString (strJoinWith "-" proppath) ++ ".md",
             typeName := typeName, subpropertyName := strJoinWith " " proppath,
             schema := sch }]) ∧
      prop'.get? "jsontype" = some (.str (hrefFor
        (lowerString (strJoinWith "-" proppath) ++ ".md") propname)) ∧
      prop'.get? "yamltype" = some (.str (hrefFor
        (lowerString (strJoinWith "-" proppath) ++ ".md") propname)) ∧
      prop'.get? "longformtype" = some (.str (hrefFor
        (lowerString (strJoinWith "-" proppath) ++ ".md") propname)) ∧
      prop'.get? "properties" = some (.obj members') := by
  have hEq := setDocsProps_object_eq fuel typeName propname root prop0 prop1 root1 prop3
    root2 loc0 loc proppath srcKey fields members' childArts h1 h2 h3 h4 h5
  refine ⟨(objectBranchResult typeName propname root2 prop3 loc proppath srcKey fields
      members' childArts).1,
    (objectBranchResult typeName propname root2 prop3 loc proppath srcKey fields
      members' childArts).2.1,
    .obj (setField gs "properties" (.obj members')), ?_, ?_, ?_, ?_, ?_⟩
  · rw [hEq]
    unfold objectBranchResult
    dsimp only
    rw [h6]
    simp only [setP_snd, setKey_obj]
  · unfold objectBranchResult
    dsimp only
    rw [h6]
    simp only [setP_snd, setKey_obj]
    rw [enumStep_snd_get?_ne _ _ _ _ (by decide)]
    simp only [Json.get?]
    rw [lookupField_setField_ne _ _ _ _ (by decide),
      lookupField_setField_ne _ _ _ _ (by decide),
      lookupField_setField_self]
  · unfold objectBranchResult
    dsimp only
    rw [h6]
    simp only [setP_snd, setKey_obj]
    rw [enumStep_snd_get?_ne _ _ _ _ (by decide)]
    simp only [Json.get?]
    rw [lookupField_setField_ne _ _ _ _ (by decide),
      lookupField_setField_self]
  · unfold objectBranchResult
    dsimp only
    rw [h6]
    simp only [setP_snd, setKey_obj]
    rw [enumStep_snd_get?_ne _ _ _ _ (by decide)]
    simp only [Json.get?]
    rw [lookupField_setField_self]
  · unfold objectBranchResult
    dsimp only
    rw [h6]
    simp only [setP_snd, setKey_obj]
    rw [enumStep_snd_get?_ne _ _ _ _ (by decide)]
    simp only [Json.get?]
    rw [lookupField_setField_ne _ _ _ _ (by decide),
      lookupField_setField_ne _ _ _ _ (by decide),
      lookupField_setField_ne _ _ _ _ (by decide),
      lookupField_setField_self]

/-- Witness for C6: a nested object node with one string member at path
`top/nested`, walked against an empty root schema. -/
theorem object_node_emits_one_artifact_with_link_witness :
    refStep (.obj []) (.obj [("properties", .obj [("a", .obj [("type", .str "string")])])])
        none =
      .ok (.obj [("properties", .obj [("a", .obj [("type", .str "string")])])], none) ∧
    ∃ root' prop' sch,
      setDocsProps 2 "TN" (.obj [])
          "nested" (.obj [("properties", .obj [("a", .obj [("type", .str "string")])])])
          none ["top", "nested"] =
        .ok (root', prop', [] ++
          [{ filename := lowerString (strJoinWith "-" ["top", "nested"]) ++ ".md",
             typeName := "TN", subpropertyName := strJoinWith " " ["top", "nested"],
             schema := sch }]) ∧
      prop'.get? "jsontype" = some (.str (hrefFor
        (lowerString (strJoinWith "-" ["top", "nested"]) ++ ".md") "nested")) ∧
      prop'.get? "yamltype" = some (.str (hrefFor
        (lowerString (strJoinWith "-" ["top", "nested"]) ++ ".md") "nested")) ∧
      prop'.get? "longformtype" = some (.str (hrefFor
        (lowerString (strJoinWith "-" ["top", "nested"]) ++ ".md") "nested")) ∧
      prop'.get? "properties" = some (.obj [("a", .obj [("type", .str "string"),
        ("jsontype", .str "String"), ("yamltype", .str "String"),
        ("longformtype", .str "String")])]) :=
  ⟨by decide,
   object_node_emits_one_artifact_with_link 1 "TN" "nested"
     (.obj []) (.obj [("properties", .obj [("a", .obj [("type", .str "string")])])])
     (.obj [("properties", .obj [("a", .obj [("type", .str "string")])])])
     (.obj []) (.obj [("properties", .obj [("a", .obj [("type", .str "string")])])])
     (.obj []) none none ["top", "nested"] (some "properties")
     [("a", .obj [("type", .str "string")])]
     [("a", .obj [("type", .str "string"), ("jsontype", .str "String"),
       ("yamltype", .str "String"), ("longformtype", .str "String")])]
     [] [("properties", .obj [("a", .obj [("type", .str "string")])])]
     (by decide) (by decide) (by decide) (by decide) (by decide) (by decide)⟩

/-! ## Claim C7 -/

/-- Counterexample to claim C7 as stated: a node with neither `type` nor
`properties`/`patternProperties` — here the empty object node at path
`p` — is classified as object and still emits exactly one
(empty-membered) side artifact, where the claim says a zero-property
object node emits none. -/
theorem zero_property_object_node_emits_artifact :
    (setDocsProps 2 "TN" (.obj []) "p" (.obj []) none ["p"]).map
        (fun r => r.2.2.map DocArtifact.filename) = .ok ["p.md"] := by decide

/-- Claim C7 (corrected): a node with neither a `type` nor
`properties`/`patternProperties` is classified as object with empty
members, and it emits exactly one (empty-membered) side artifact
unconditionally — emission does not require the node to have at least
one property.  The annotated node carries the empty member map and the
cross-reference link of the object branch. -/
theorem typeless_node_classified_object (fuel : Nat) (typeName propname : String)
    (root : Json) (fs : List (String × Json)) (proppath : List String) (b1 b2 : Bool)
    (h1 : lookupField fs "$ref" = none)
    (h2 : lookupField fs "type" = none)
    (h3 : lookupField fs "properties" = none)
    (h4 : lookupField fs "patternProperties" = none)
    (hb1 : ptrListMem root "createOnlyProperties"
      (fragmentEncode "" ("properties" :: proppath)) = .ok b1)
    (hb2 : ptrListMem root "readOnlyProperties"
      (fragmentEncode "" ("properties" :: proppath)) = .ok b2) :
    ∃ root' prop' sch,
      setDocsProps (fuel + 1) typeName root propname (.obj fs) none proppath =
        .ok (root', prop',
          [{ filename := lowerString (strJoinWith "-" proppath) ++ ".md",
             typeName := typeName, subpropertyName := strJoinWith " " proppath,
             schema := sch }]) ∧
      prop'.get? "properties" = some (.obj []) ∧
      prop'.get? "jsontype" = some (.str (hrefFor
        (lowerString (strJoinWith "-" proppath) ++ ".md") propname)) := by
  obtain ⟨gs, hflag, hgt, hgp, hgpp⟩ :
      ∃ gs, flagsStep root (.obj fs) none proppath = .ok (root, .obj gs) ∧
        lookupField gs "type" = none ∧ lookupField gs "properties" = none ∧
        lookupField gs "patternProperties" = none := by
    have hf := flagsStep_loc_none root (.obj fs) proppath b1 b2 hb1 hb2
    cases b1 <;> cases b2
    · exact ⟨fs, by simpa using hf, h2, h3, h4⟩
    · refine ⟨setField fs "readonly" (.bool true), by simpa [setKey_obj] using hf,
        ?_, ?_, ?_⟩
      · rw [lookupField_setField_ne _ _ _ _ (by decide)]; exact h2
      · rw [lookupField_setField_ne _ _ _ _ (by decide)]; exact h3
      · rw [lookupField_setField_ne _ _ _ _ (by decide)]; exact h4
    · refine ⟨setField fs "createonly" (.bool true), by simpa [setKey_obj] using hf,
        ?_, ?_, ?_⟩
      · rw [lookupField_setField_ne _ _ _ _ (by decide)]; exact h2
      · rw [lookupField_setField_ne _ _ _ _ (by decide)]; exact h3
      · rw [lookupField_setField_ne _ _ _ _ (by decide)]; exact h4
    · refine ⟨setField (setField fs "createonly" (.bool true)) "readonly" (.bool true),
        by simpa [setKey_obj] using hf, ?_, ?_, ?_⟩
      · rw [lookupField_setField_ne _ _ _ _ (by decide),
          lookupField_setField_ne _ _ _ _ (by decide)]
        exact h2
      · rw [lookupField_setField_ne _ _ _ _ (by decide),
          lookupField_setField_ne _ _ _ _ (by decide)]
        exact h3
      · rw [lookupField_setField_ne _ _ _ _ (by decide),
          lookupField_setField_ne _ _ _ _ (by decide)]
        exact h4
  have ht : typeTag (.obj gs) = .ok "object" := by
    unfold typeTag
    dsimp only
    rw [hgt]
  have hm : membersOf (.obj gs) = .ok (none, []) := by
    unfold membersOf membersOfPattern
    rw [show (Json.obj gs).get? "properties" = none from hgp]
    dsimp only
    rw [show (Json.obj gs).get? "patternProperties" = none from hgpp]
  have h5 : walkMembersWith (fun r n v l pp => setDocsProps fuel typeName r n v l pp)
      none none proppath root [] = .ok (root, [], []) := rfl
  have hEq := setDocsProps_object_eq fuel typeName propname root (.obj fs) (.obj fs)
    root (.obj gs) root none none proppath none [] [] []
    (refStep_no_ref root fs none h1) hflag ht hm h5
  refine ⟨(objectBranchResult typeName propname root (.obj gs) none proppath none
      [] [] []).1,
    (objectBranchResult typeName propname root (.obj gs) none proppath none
      [] [] []).2.1,
    .obj (setField gs "properties" (.obj [])), ?_, ?_, ?_⟩
  · rw [hEq]
    unfold objectBranchResult
    dsimp only [resyncObject, foldbackMembers]
    simp only [setP_snd, setKey_obj, List.nil_append]
  · unfold objectBranchResult
    dsimp only [resyncObject, foldbackMembers]
    simp only [setP_snd, setKey_obj]
    rw [enumStep_snd_get?_ne _ _ _ _ (by decide)]
    simp only [Json.get?]
    rw [lookupField_setField_ne _ _ _ _ (by decide),
      lookupField_setField_ne _ _ _ _ (by decide),
      lookupField_setField_ne _ _ _ _ (by decide),
      lookupField_setField_self]
  · unfold objectBranchResult
    dsimp only [resyncObject, foldbackMembers]
    simp only [setP_snd, setKey_obj]
    rw [enumStep_snd_get?_ne _ _ _ _ (by decide)]
    simp only [Json.get?]
    rw [lookupField_setField_ne _ _ _ _ (by decide),
      lookupField_setField_ne _ _ _ _ (by decide),
      lookupField_setField_self]

/-- Witness for C7: the empty node at path `p` under an empty root
schema. -/
theorem typeless_node_classified_object_witness :
    lookupField ([] : List (String × Json)) "$ref" = none ∧
    ∃ root' prop' sch,
      setDocsProps 2 "TN" (.obj []) "p" (.obj []) none ["p"] =
        .ok (root', prop',
          [{ filename := lowerString (strJoinWith "-" ["p"]) ++ ".md",
             typeName := "TN", subpropertyName := strJoinWith " " ["p"],
             schema := sch }]) ∧
      prop'.get? "properties" = some (.obj []) ∧
      prop'.get? "jsontype" = some (.str (hrefFor
        (lowerString (strJoinWith "-" ["p"]) ++ ".md") "p")) :=
  ⟨rfl,
   typeless_node_classified_object 1 "TN" "p" (.obj []) [] ["p"] false false
     rfl rfl rfl rfl (by decide) (by decide)⟩

end Rpdk
